import Mathlib

/-!
Verification of the sample-size estimation engine of the zenith calculator
repository (`src/utils/statistics.ts`).

The engine is pure numeric code.  We embed it shallowly over the real
numbers: JavaScript `number` arithmetic is idealised as exact real
arithmetic, `Math.ceil` becomes `Int.ceil`, `Math.sqrt` becomes
`Real.sqrt`, `Math.pow(x, y)` becomes real exponentiation, and the
object-key lookups of the two quantile tables (exact floating-point key
match with a `|| default` fallback; no table value is falsy) become
exact-equality conditional chains.  Branching on real-number equalities is
classical, so the definitions live in a `noncomputable section`.

A second, separate embedding (`JsNum`) models the IEEE special values
NaN/Infinity over exact reals; it is used only for the claim about
degenerate inputs, where the JavaScript evaluation stays exact so the
model is faithful.
-/

open scoped Classical

noncomputable section

namespace Zenith

/-- Normal-quantile table (`Z_SCORES`) lookup, from `getZScore`:
`Z_SCORES[key] || 1.96`, i.e. exact-key match with default `1.96`
("Default to 95% confidence if not found"); no table value is zero, so
the `||` fallback fires exactly on missing keys. -/
def getZScore (confidenceLevel : ℝ) : ℝ :=
  if confidenceLevel = 0.8 then 0.84
  else if confidenceLevel = 0.85 then 1.04
  else if confidenceLevel = 0.9 then 1.28
  else if confidenceLevel = 0.95 then 1.65
  else if confidenceLevel = 0.99 then 2.33
  else if confidenceLevel = 0.995 then 2.58
  else if confidenceLevel = 0.999 then 3.29
  else 1.96

/-- Reference Student-t quantile table (`T_SCORES`) lookup, from
`getInitialTScore`: `T_SCORES[key] || 1.697`, exact-key match with
default `1.697`. -/
def getInitialTScore (confidenceLevel : ℝ) : ℝ :=
  if confidenceLevel = 0.8 then 0.854
  else if confidenceLevel = 0.85 then 1.055
  else if confidenceLevel = 0.9 then 1.31
  else if confidenceLevel = 0.95 then 1.697
  else if confidenceLevel = 0.99 then 2.457
  else if confidenceLevel = 0.995 then 2.75
  else if confidenceLevel = 0.999 then 3.646
  else 1.697

/-- From `applyBonferroniCorrection`: if `comparisons <= 1` return the
significance unchanged, otherwise
`max(1 - Math.pow(1 - (1 - significance), 1/comparisons), 0.5)`. -/
def applyBonferroniCorrection (significance : ℝ) (comparisons : ℕ) : ℝ :=
  if comparisons ≤ 1 then significance
  else
    let correctedAlpha := 1 - (1 - (1 - significance)) ^ ((1 : ℝ) / (comparisons : ℝ))
    max correctedAlpha 0.5

/-- From `calculateTValue`.  The source computes `alpha`, `a`, returns a
conservative `1.5 *` the reference-t entry when `degreesOfFreedom < 3`,
and otherwise branches on exact equality of `a` (the unused intermediate
logarithms `w`, `u` of the source are dead code and omitted). -/
def calculateTValue (degreesOfFreedom : ℝ) (confidenceLevel : ℝ) : ℝ :=
  let alpha := 1 - confidenceLevel
  let a := 1 - alpha / 2
  if degreesOfFreedom < 3 then getInitialTScore confidenceLevel * 1.5
  else if a = 0.975 then
    1.96 + 0.958 / degreesOfFreedom + 0.25 / degreesOfFreedom ^ 2
  else if a = 0.95 then
    1.645 + 0.727 / degreesOfFreedom + 0.18 / degreesOfFreedom ^ 2
  else if a = 0.995 then
    2.576 + 1.28 / degreesOfFreedom + 0.38 / degreesOfFreedom ^ 2
  else
    getZScore confidenceLevel + 0.85 / degreesOfFreedom + 0.22 / degreesOfFreedom ^ 2

/-- From `calculateBinomialSampleSize`: initial z-based estimate, then a
`for` loop of exactly 4 refinement passes, each taking
`df = 2 * sampleSize - 2` and re-rounding with `Math.ceil`. -/
def calculateBinomialSampleSize (baselineConversion minimumDetectableEffect significance power : ℝ)
    (variations : ℕ) : ℤ :=
  let p1 := baselineConversion / 100
  let p2 := p1 * (1 + minimumDetectableEffect / 100)
  let correctedSignificance := applyBonferroniCorrection significance variations
  let zalpha := getZScore correctedSignificance
  let zbeta := getZScore power
  let sd1 := Real.sqrt (2 * p1 * (1 - p1))
  let sd2 := Real.sqrt (p1 * (1 - p1) + p2 * (1 - p2))
  let denominator := (p2 - p1) ^ 2
  let sampleSize : ℤ := ⌈(zalpha * sd1 + zbeta * sd2) ^ 2 / denominator⌉
  (List.range 4).foldl
    (fun n _ =>
      let df : ℝ := 2 * (n : ℝ) - 2
      let talpha := calculateTValue df correctedSignificance
      let tbeta := calculateTValue df power
      ⌈(talpha * sd1 + tbeta * sd2) ^ 2 / denominator⌉)
    sampleSize

/-- From `calculateContinuousSampleSize`. -/
def calculateContinuousSampleSize (mean standardDeviation minimumDetectableEffect significance power : ℝ)
    (variations : ℕ) : ℤ :=
  let mde := minimumDetectableEffect / 100 * mean
  let correctedSignificance := applyBonferroniCorrection significance variations
  let sampleSize : ℤ :=
    ⌈2 * standardDeviation ^ 2 * (getZScore correctedSignificance + getZScore power) ^ 2 / mde ^ 2⌉
  (List.range 4).foldl
    (fun n _ =>
      let df : ℝ := 2 * (n : ℝ) - 2
      let talpha := calculateTValue df correctedSignificance
      let tbeta := calculateTValue df power
      ⌈2 * standardDeviation ^ 2 * (talpha + tbeta) ^ 2 / mde ^ 2⌉)
    sampleSize

/-- From `calculateRatioSampleSize`: identical loop with the coefficient
of variation `cv = standardDeviation / mean` and the relative mde as
denominator. -/
def calculateRatioSampleSize (mean standardDeviation minimumDetectableEffect significance power : ℝ)
    (variations : ℕ) : ℤ :=
  let cv := standardDeviation / mean
  let correctedSignificance := applyBonferroniCorrection significance variations
  let sampleSize : ℤ :=
    ⌈2 * cv ^ 2 * (getZScore correctedSignificance + getZScore power) ^ 2 /
      (minimumDetectableEffect / 100) ^ 2⌉
  (List.range 4).foldl
    (fun n _ =>
      let df : ℝ := 2 * (n : ℝ) - 2
      let talpha := calculateTValue df correctedSignificance
      let tbeta := calculateTValue df power
      ⌈2 * cv ^ 2 * (talpha + tbeta) ^ 2 / (minimumDetectableEffect / 100) ^ 2⌉)
    sampleSize

/-- Following the spec's words (§4.4 step 3), binomial metric: one
refinement pass derives `degreesOfFreedom = 2 × currentEstimate − 2`,
fetches `talpha`/`tbeta` from the t-approximator, recomputes the binomial
estimate with t-quantiles in place of z-quantiles and rounds up
immediately. -/
def specRefineBinomial (sd1 sd2 denominator correctedSignificance power : ℝ)
    (currentEstimate : ℤ) : ℤ :=
  let degreesOfFreedom : ℝ := 2 * (currentEstimate : ℝ) - 2
  let talpha := calculateTValue degreesOfFreedom correctedSignificance
  let tbeta := calculateTValue degreesOfFreedom power
  ⌈(talpha * sd1 + tbeta * sd2) ^ 2 / denominator⌉

/-- Following the spec's words (§4.4 step 3), continuous metric. -/
def specRefineContinuous (standardDeviation mdeAbs correctedSignificance power : ℝ)
    (currentEstimate : ℤ) : ℤ :=
  let degreesOfFreedom : ℝ := 2 * (currentEstimate : ℝ) - 2
  let talpha := calculateTValue degreesOfFreedom correctedSignificance
  let tbeta := calculateTValue degreesOfFreedom power
  ⌈2 * standardDeviation ^ 2 * (talpha + tbeta) ^ 2 / mdeAbs ^ 2⌉

/-- Following the spec's words (§4.4 step 3), ratio metric. -/
def specRefineRatio (cv relativeMde correctedSignificance power : ℝ)
    (currentEstimate : ℤ) : ℤ :=
  let degreesOfFreedom : ℝ := 2 * (currentEstimate : ℝ) - 2
  let talpha := calculateTValue degreesOfFreedom correctedSignificance
  let tbeta := calculateTValue degreesOfFreedom power
  ⌈2 * cv ^ 2 * (talpha + tbeta) ^ 2 / relativeMde ^ 2⌉

/-- JavaScript number idealised as an exact real extended with the IEEE
special values NaN and the two infinities (rounding and signed zero are
not modelled; on the degenerate traces below every JavaScript operation
is exact, so the model is faithful there). -/
inductive JsNum : Type where
  | num : ℝ → JsNum
  | nan : JsNum
  | posInf : JsNum
  | negInf : JsNum

/-- IEEE addition: NaN propagates, opposite infinities give NaN. -/
def JsNum.add : JsNum → JsNum → JsNum
  | nan, _ => nan
  | _, nan => nan
  | posInf, negInf => nan
  | negInf, posInf => nan
  | posInf, _ => posInf
  | _, posInf => posInf
  | negInf, _ => negInf
  | _, negInf => negInf
  | num a, num b => num (a + b)

/-- IEEE negation. -/
def JsNum.neg : JsNum → JsNum
  | num a => num (-a)
  | nan => nan
  | posInf => negInf
  | negInf => posInf

/-- IEEE subtraction, as addition of the negation. -/
def JsNum.sub (x y : JsNum) : JsNum := x.add y.neg

/-- IEEE multiplication: NaN propagates, infinity times zero is NaN. -/
def JsNum.mul : JsNum → JsNum → JsNum
  | nan, _ => nan
  | _, nan => nan
  | posInf, posInf => posInf
  | posInf, negInf => negInf
  | negInf, posInf => negInf
  | negInf, negInf => posInf
  | posInf, num b => if b = 0 then nan else if 0 < b then posInf else negInf
  | num a, posInf => if a = 0 then nan else if 0 < a then posInf else negInf
  | negInf, num b => if b = 0 then nan else if 0 < b then negInf else posInf
  | num a, negInf => if a = 0 then nan else if 0 < a then negInf else posInf
  | num a, num b => num (a * b)

/-- IEEE division: NaN propagates, `0 / 0` is NaN, a nonzero finite
number over zero is a signed infinity, a finite number over infinity is
zero. -/
def JsNum.div : JsNum → JsNum → JsNum
  | nan, _ => nan
  | _, nan => nan
  | posInf, posInf => nan
  | posInf, negInf => nan
  | negInf, posInf => nan
  | negInf, negInf => nan
  | posInf, num b => if 0 ≤ b then posInf else negInf
  | negInf, num b => if 0 ≤ b then negInf else posInf
  | num _, posInf => num 0
  | num _, negInf => num 0
  | num a, num b =>
    if b = 0 then (if a = 0 then nan else if 0 < a then posInf else negInf)
    else num (a / b)

/-- IEEE square root: NaN on negative arguments. -/
def JsNum.sqrt : JsNum → JsNum
  | nan => nan
  | posInf => posInf
  | negInf => nan
  | num a => if a < 0 then nan else num (Real.sqrt a)

/-- Squaring, as used for `Math.pow(x, 2)`. -/
def JsNum.pow2 (x : JsNum) : JsNum := x.mul x

/-- The `Math.ceil` function: identity on the special values. -/
def JsNum.ceil : JsNum → JsNum
  | num a => num (⌈a⌉ : ℝ)
  | nan => nan
  | posInf => posInf
  | negInf => negInf

/-- The JavaScript `<` comparison against a real constant: every
comparison with NaN is false. -/
def JsNum.ltReal : JsNum → ℝ → Prop
  | num a, r => a < r
  | negInf, _ => True
  | nan, _ => False
  | posInf, _ => False

/-- From `calculateTValue`, with the degrees of freedom carried in the
IEEE model (the confidence level stays an exact real: the branch
selection of the source only inspects it). -/
def calculateTValueJs (degreesOfFreedom : JsNum) (confidenceLevel : ℝ) : JsNum :=
  let alpha := 1 - confidenceLevel
  let a := 1 - alpha / 2
  if degreesOfFreedom.ltReal 3 then JsNum.num (getInitialTScore confidenceLevel * 1.5)
  else if a = 0.975 then
    ((JsNum.num 1.96).add ((JsNum.num 0.958).div degreesOfFreedom)).add
      ((JsNum.num 0.25).div degreesOfFreedom.pow2)
  else if a = 0.95 then
    ((JsNum.num 1.645).add ((JsNum.num 0.727).div degreesOfFreedom)).add
      ((JsNum.num 0.18).div degreesOfFreedom.pow2)
  else if a = 0.995 then
    ((JsNum.num 2.576).add ((JsNum.num 1.28).div degreesOfFreedom)).add
      ((JsNum.num 0.38).div degreesOfFreedom.pow2)
  else
    ((JsNum.num (getZScore confidenceLevel)).add ((JsNum.num 0.85).div degreesOfFreedom)).add
      ((JsNum.num 0.22).div degreesOfFreedom.pow2)

/-- From `calculateBinomialSampleSize`, computed in the IEEE model so
that degenerate inputs produce NaN/Infinity exactly as the JavaScript
engine does, instead of the junk values of total real division. -/
def calculateBinomialSampleSizeJs (baselineConversion minimumDetectableEffect significance power : ℝ)
    (variations : ℕ) : JsNum :=
  let p1 := (JsNum.num baselineConversion).div (JsNum.num 100)
  let p2 := p1.mul ((JsNum.num 1).add ((JsNum.num minimumDetectableEffect).div (JsNum.num 100)))
  let correctedSignificance := applyBonferroniCorrection significance variations
  let zalpha := JsNum.num (getZScore correctedSignificance)
  let zbeta := JsNum.num (getZScore power)
  let sd1 := (((JsNum.num 2).mul p1).mul ((JsNum.num 1).sub p1)).sqrt
  let sd2 := ((p1.mul ((JsNum.num 1).sub p1)).add (p2.mul ((JsNum.num 1).sub p2))).sqrt
  let numerator := ((zalpha.mul sd1).add (zbeta.mul sd2)).pow2
  let denominator := (p2.sub p1).pow2
  let sampleSize := (numerator.div denominator).ceil
  (List.range 4).foldl
    (fun n _ =>
      let df := ((JsNum.num 2).mul n).sub (JsNum.num 2)
      let talpha := calculateTValueJs df correctedSignificance
      let tbeta := calculateTValueJs df power
      (((talpha.mul sd1).add (tbeta.mul sd2)).pow2.div denominator).ceil)
    sampleSize

/-! Helper lemmas. -/

/-- The four-pass refinement loop of the continuous estimator, unrolled:
supplying the corrected significance and the five successive rounded
estimates determines the returned value. -/
lemma cont_eval_of_steps (mean sd mde sig pw : ℝ) (v : ℕ) (cs : ℝ) (n0 n1 n2 n3 n4 : ℤ)
    (hcs : applyBonferroniCorrection sig v = cs)
    (h0 : (⌈2 * sd ^ 2 * (getZScore cs + getZScore pw) ^ 2 / (mde / 100 * mean) ^ 2⌉ : ℤ) = n0)
    (h1 : specRefineContinuous sd (mde / 100 * mean) cs pw n0 = n1)
    (h2 : specRefineContinuous sd (mde / 100 * mean) cs pw n1 = n2)
    (h3 : specRefineContinuous sd (mde / 100 * mean) cs pw n2 = n3)
    (h4 : specRefineContinuous sd (mde / 100 * mean) cs pw n3 = n4) :
    calculateContinuousSampleSize mean sd mde sig pw v = n4 := by
  have hiter : calculateContinuousSampleSize mean sd mde sig pw v =
      specRefineContinuous sd (mde / 100 * mean) (applyBonferroniCorrection sig v) pw
        (specRefineContinuous sd (mde / 100 * mean) (applyBonferroniCorrection sig v) pw
          (specRefineContinuous sd (mde / 100 * mean) (applyBonferroniCorrection sig v) pw
            (specRefineContinuous sd (mde / 100 * mean) (applyBonferroniCorrection sig v) pw
              ⌈2 * sd ^ 2 * (getZScore (applyBonferroniCorrection sig v) + getZScore pw) ^ 2 /
                (mde / 100 * mean) ^ 2⌉))) := rfl
  rw [hiter, hcs, h0, h1, h2, h3, h4]

/-- For any significance at least one half and at least two comparisons,
the corrected significance is exactly the clamp value one half. -/
lemma applyBonferroniCorrection_eq_half {s : ℝ} (hs : 1 / 2 ≤ s) {n : ℕ} (hn : 2 ≤ n) :
    applyBonferroniCorrection s n = 1 / 2 := by
  have h1 : ¬ n ≤ 1 := by omega
  have hn1 : (1 : ℝ) ≤ (n : ℝ) := by exact_mod_cast (by omega : 1 ≤ n)
  have hnpos : (0 : ℝ) < (n : ℝ) := by linarith
  have hexp0 : (0 : ℝ) ≤ 1 / (n : ℝ) := by positivity
  have hexp1 : 1 / (n : ℝ) ≤ 1 := by
    rw [div_le_one hnpos]; exact hn1
  have key : (1 / 2 : ℝ) ≤ s ^ ((1 : ℝ) / (n : ℝ)) := by
    have hA : ((1 : ℝ) / 2) ^ ((1 : ℝ) / (n : ℝ)) ≤ s ^ ((1 : ℝ) / (n : ℝ)) :=
      Real.rpow_le_rpow (by norm_num) hs hexp0
    have hB : ((1 : ℝ) / 2) ^ (1 : ℝ) ≤ ((1 : ℝ) / 2) ^ ((1 : ℝ) / (n : ℝ)) :=
      Real.rpow_le_rpow_of_exponent_ge (by norm_num) (by norm_num) hexp1
    rw [Real.rpow_one] at hB
    linarith
  simp only [applyBonferroniCorrection]
  rw [if_neg h1, sub_sub_cancel]
  have hle : 1 - s ^ ((1 : ℝ) / (n : ℝ)) ≤ (0.5 : ℝ) := by
    have h05 : (0.5 : ℝ) = 1 / 2 := by norm_num
    rw [h05]
    linarith
  rw [max_eq_right hle]
  norm_num

lemma eval_cont_sig095 : calculateContinuousSampleSize 75 25 10 0.95 0.8 1 = 175 := by
  refine cont_eval_of_steps 75 25 10 0.95 0.8 1 0.95 138 176 175 175 175 ?_ ?_ ?_ ?_ ?_ ?_
  · norm_num [applyBonferroniCorrection]
  · norm_num [getZScore]
    rw [Int.ceil_eq_iff]
    constructor <;> norm_num
  · simp only [specRefineContinuous]
    norm_num [calculateTValue, getZScore, getInitialTScore]
    rw [Int.ceil_eq_iff]
    constructor <;> norm_num
  · simp only [specRefineContinuous]
    norm_num [calculateTValue, getZScore, getInitialTScore]
    rw [Int.ceil_eq_iff]
    constructor <;> norm_num
  · simp only [specRefineContinuous]
    norm_num [calculateTValue, getZScore, getInitialTScore]
    rw [Int.ceil_eq_iff]
    constructor <;> norm_num
  · simp only [specRefineContinuous]
    norm_num [calculateTValue, getZScore, getInitialTScore]
    rw [Int.ceil_eq_iff]
    constructor <;> norm_num

lemma eval_cont_sig099 : calculateContinuousSampleSize 75 25 10 0.99 0.8 1 = 260 := by
  refine cont_eval_of_steps 75 25 10 0.99 0.8 1 0.99 224 261 260 260 260 ?_ ?_ ?_ ?_ ?_ ?_
  · norm_num [applyBonferroniCorrection]
  · norm_num [getZScore]
    rw [Int.ceil_eq_iff]
    constructor <;> norm_num
  · simp only [specRefineContinuous]
    norm_num [calculateTValue, getZScore, getInitialTScore]
    rw [Int.ceil_eq_iff]
    constructor <;> norm_num
  · simp only [specRefineContinuous]
    norm_num [calculateTValue, getZScore, getInitialTScore]
    rw [Int.ceil_eq_iff]
    constructor <;> norm_num
  · simp only [specRefineContinuous]
    norm_num [calculateTValue, getZScore, getInitialTScore]
    rw [Int.ceil_eq_iff]
    constructor <;> norm_num
  · simp only [specRefineContinuous]
    norm_num [calculateTValue, getZScore, getInitialTScore]
    rw [Int.ceil_eq_iff]
    constructor <;> norm_num

lemma eval_cont_sig099_var2 : calculateContinuousSampleSize 75 25 10 0.99 0.8 2 = 175 := by
  refine cont_eval_of_steps 75 25 10 0.99 0.8 2 (1 / 2) 175 175 175 175 175 ?_ ?_ ?_ ?_ ?_ ?_
  · exact applyBonferroniCorrection_eq_half (by norm_num) (by norm_num)
  · norm_num [getZScore]
    rw [Int.ceil_eq_iff]
    constructor <;> norm_num
  · simp only [specRefineContinuous]
    norm_num [calculateTValue, getZScore, getInitialTScore]
    rw [Int.ceil_eq_iff]
    constructor <;> norm_num
  · simp only [specRefineContinuous]
    norm_num [calculateTValue, getZScore, getInitialTScore]
    rw [Int.ceil_eq_iff]
    constructor <;> norm_num
  · simp only [specRefineContinuous]
    norm_num [calculateTValue, getZScore, getInitialTScore]
    rw [Int.ceil_eq_iff]
    constructor <;> norm_num
  · simp only [specRefineContinuous]
    norm_num [calculateTValue, getZScore, getInitialTScore]
    rw [Int.ceil_eq_iff]
    constructor <;> norm_num

lemma eval_cont_sig0991 : calculateContinuousSampleSize 75 25 10 0.991 0.8 1 = 175 := by
  refine cont_eval_of_steps 75 25 10 0.991 0.8 1 0.991 175 175 175 175 175 ?_ ?_ ?_ ?_ ?_ ?_
  · norm_num [applyBonferroniCorrection]
  · norm_num [getZScore]
    rw [Int.ceil_eq_iff]
    constructor <;> norm_num
  · simp only [specRefineContinuous]
    norm_num [calculateTValue, getZScore, getInitialTScore]
    rw [Int.ceil_eq_iff]
    constructor <;> norm_num
  · simp only [specRefineContinuous]
    norm_num [calculateTValue, getZScore, getInitialTScore]
    rw [Int.ceil_eq_iff]
    constructor <;> norm_num
  · simp only [specRefineContinuous]
    norm_num [calculateTValue, getZScore, getInitialTScore]
    rw [Int.ceil_eq_iff]
    constructor <;> norm_num
  · simp only [specRefineContinuous]
    norm_num [calculateTValue, getZScore, getInitialTScore]
    rw [Int.ceil_eq_iff]
    constructor <;> norm_num

lemma eval_cont_mde5 : calculateContinuousSampleSize 75 25 5 0.95 0.8 1 = 698 := by
  refine cont_eval_of_steps 75 25 5 0.95 0.8 1 0.95 552 698 698 698 698 ?_ ?_ ?_ ?_ ?_ ?_
  · norm_num [applyBonferroniCorrection]
  · norm_num [getZScore]
    rw [Int.ceil_eq_iff]
    constructor <;> norm_num
  · simp only [specRefineContinuous]
    norm_num [calculateTValue, getZScore, getInitialTScore]
    rw [Int.ceil_eq_iff]
    constructor <;> norm_num
  · simp only [specRefineContinuous]
    norm_num [calculateTValue, getZScore, getInitialTScore]
    rw [Int.ceil_eq_iff]
    constructor <;> norm_num
  · simp only [specRefineContinuous]
    norm_num [calculateTValue, getZScore, getInitialTScore]
    rw [Int.ceil_eq_iff]
    constructor <;> norm_num
  · simp only [specRefineContinuous]
    norm_num [calculateTValue, getZScore, getInitialTScore]
    rw [Int.ceil_eq_iff]
    constructor <;> norm_num

lemma eval_cont_mde20 : calculateContinuousSampleSize 75 25 20 0.95 0.8 1 = 45 := by
  refine cont_eval_of_steps 75 25 20 0.95 0.8 1 0.95 35 45 45 45 45 ?_ ?_ ?_ ?_ ?_ ?_
  · norm_num [applyBonferroniCorrection]
  · norm_num [getZScore]
    rw [Int.ceil_eq_iff]
    constructor <;> norm_num
  · simp only [specRefineContinuous]
    norm_num [calculateTValue, getZScore, getInitialTScore]
    rw [Int.ceil_eq_iff]
    constructor <;> norm_num
  · simp only [specRefineContinuous]
    norm_num [calculateTValue, getZScore, getInitialTScore]
    rw [Int.ceil_eq_iff]
    constructor <;> norm_num
  · simp only [specRefineContinuous]
    norm_num [calculateTValue, getZScore, getInitialTScore]
    rw [Int.ceil_eq_iff]
    constructor <;> norm_num
  · simp only [specRefineContinuous]
    norm_num [calculateTValue, getZScore, getInitialTScore]
    rw [Int.ceil_eq_iff]
    constructor <;> norm_num

lemma eval_cont_mde1001 : calculateContinuousSampleSize 75 25 10.01 0.95 0.8 1 = 175 := by
  refine cont_eval_of_steps 75 25 10.01 0.95 0.8 1 0.95 138 175 175 175 175 ?_ ?_ ?_ ?_ ?_ ?_
  · norm_num [applyBonferroniCorrection]
  · norm_num [getZScore]
    rw [Int.ceil_eq_iff]
    constructor <;> norm_num
  · simp only [specRefineContinuous]
    norm_num [calculateTValue, getZScore, getInitialTScore]
    rw [Int.ceil_eq_iff]
    constructor <;> norm_num
  · simp only [specRefineContinuous]
    norm_num [calculateTValue, getZScore, getInitialTScore]
    rw [Int.ceil_eq_iff]
    constructor <;> norm_num
  · simp only [specRefineContinuous]
    norm_num [calculateTValue, getZScore, getInitialTScore]
    rw [Int.ceil_eq_iff]
    constructor <;> norm_num
  · simp only [specRefineContinuous]
    norm_num [calculateTValue, getZScore, getInitialTScore]
    rw [Int.ceil_eq_iff]
    constructor <;> norm_num

lemma range_four : List.range 4 = [0, 1, 2, 3] := rfl

/-- NaN degrees of freedom fail the `< 3` comparison and poison every
arithmetic branch of the t-approximation. -/
lemma tvalJs_nan (c : ℝ) : calculateTValueJs JsNum.nan c = JsNum.nan := by
  simp only [calculateTValueJs]
  rw [if_neg (show ¬ JsNum.nan.ltReal 3 from fun h => h)]
  split
  · rfl
  · split
    · rfl
    · split
      · rfl
      · rfl

lemma eval_cont_sig09 : calculateContinuousSampleSize 75 25 10 0.9 0.8 1 = 138 := by
  refine cont_eval_of_steps 75 25 10 0.9 0.8 1 0.9 100 139 138 138 138 ?_ ?_ ?_ ?_ ?_ ?_
  · norm_num [applyBonferroniCorrection]
  · norm_num [getZScore]
    rw [Int.ceil_eq_iff]
    constructor <;> norm_num
  · simp only [specRefineContinuous]
    norm_num [calculateTValue, getZScore, getInitialTScore]
    rw [Int.ceil_eq_iff]
    constructor <;> norm_num
  · simp only [specRefineContinuous]
    norm_num [calculateTValue, getZScore, getInitialTScore]
    rw [Int.ceil_eq_iff]
    constructor <;> norm_num
  · simp only [specRefineContinuous]
    norm_num [calculateTValue, getZScore, getInitialTScore]
    rw [Int.ceil_eq_iff]
    constructor <;> norm_num
  · simp only [specRefineContinuous]
    norm_num [calculateTValue, getZScore, getInitialTScore]
    rw [Int.ceil_eq_iff]
    constructor <;> norm_num

/-! Claim theorems. -/

/-- C1: for every metric type the estimator applies the Bonferroni
correction to significance using variations, computes an initial
z-quantile estimate from the metric-specific formula, then performs
exactly 4 refinement iterations of the spec's step (df = 2n − 2,
t-quantiles replace z-quantiles, immediate round-up), and the returned
value is the 4th iteration's rounded recomputation with no fifth
recomputation after the loop. -/
theorem claim_C1_iteration_shape (b mde sig pw mean sd : ℝ) (v : ℕ) :
    (calculateBinomialSampleSize b mde sig pw v =
      (specRefineBinomial (Real.sqrt (2 * (b / 100) * (1 - b / 100)))
          (Real.sqrt (b / 100 * (1 - b / 100) +
            b / 100 * (1 + mde / 100) * (1 - b / 100 * (1 + mde / 100))))
          ((b / 100 * (1 + mde / 100) - b / 100) ^ 2)
          (applyBonferroniCorrection sig v) pw)^[4]
        ⌈(getZScore (applyBonferroniCorrection sig v) * Real.sqrt (2 * (b / 100) * (1 - b / 100)) +
            getZScore pw * Real.sqrt (b / 100 * (1 - b / 100) +
              b / 100 * (1 + mde / 100) * (1 - b / 100 * (1 + mde / 100)))) ^ 2 /
          (b / 100 * (1 + mde / 100) - b / 100) ^ 2⌉) ∧
    (calculateContinuousSampleSize mean sd mde sig pw v =
      (specRefineContinuous sd (mde / 100 * mean) (applyBonferroniCorrection sig v) pw)^[4]
        ⌈2 * sd ^ 2 * (getZScore (applyBonferroniCorrection sig v) + getZScore pw) ^ 2 /
          (mde / 100 * mean) ^ 2⌉) ∧
    (calculateRatioSampleSize mean sd mde sig pw v =
      (specRefineRatio (sd / mean) (mde / 100) (applyBonferroniCorrection sig v) pw)^[4]
        ⌈2 * (sd / mean) ^ 2 * (getZScore (applyBonferroniCorrection sig v) + getZScore pw) ^ 2 /
          (mde / 100) ^ 2⌉) :=
  ⟨rfl, rfl, rfl⟩

/-- C2 counterexample: the claim says a confidence level that is not a
table key makes `getZScore` return the table's 0.95 entry 1.65; at the
non-key level 0.97 the code returns the default 1.96 instead. -/
theorem claim_C2_counterexample : getZScore 0.97 = 1.96 ∧ getZScore 0.97 ≠ 1.65 := by
  constructor <;> norm_num [getZScore]

/-- C2 (amended): every table key returns its documented constant; a
level that is not a key makes `getZScore` return the default 1.96 (not
the 0.95 entry 1.65) and `getInitialTScore` return 1.697, which equals
the t-table's 0.95 entry. -/
theorem claim_C2_lookup_fallback (c : ℝ) :
    ((c ≠ 0.8 ∧ c ≠ 0.85 ∧ c ≠ 0.9 ∧ c ≠ 0.95 ∧ c ≠ 0.99 ∧ c ≠ 0.995 ∧ c ≠ 0.999) →
      getZScore c = 1.96 ∧ getInitialTScore c = 1.697) ∧
    (getZScore 0.8 = 0.84 ∧ getZScore 0.85 = 1.04 ∧ getZScore 0.9 = 1.28 ∧
      getZScore 0.95 = 1.65 ∧ getZScore 0.99 = 2.33 ∧ getZScore 0.995 = 2.58 ∧
      getZScore 0.999 = 3.29) ∧
    (getInitialTScore 0.8 = 0.854 ∧ getInitialTScore 0.85 = 1.055 ∧ getInitialTScore 0.9 = 1.31 ∧
      getInitialTScore 0.95 = 1.697 ∧ getInitialTScore 0.99 = 2.457 ∧
      getInitialTScore 0.995 = 2.75 ∧ getInitialTScore 0.999 = 3.646) := by
  refine ⟨?_, ?_, ?_⟩
  · rintro ⟨h1, h2, h3, h4, h5, h6, h7⟩
    constructor
    · simp only [getZScore]
      rw [if_neg h1, if_neg h2, if_neg h3, if_neg h4, if_neg h5, if_neg h6, if_neg h7]
    · simp only [getInitialTScore]
      rw [if_neg h1, if_neg h2, if_neg h3, if_neg h4, if_neg h5, if_neg h6, if_neg h7]
  · norm_num [getZScore]
  · norm_num [getInitialTScore]

/-- C2 witness: the fallback branch of the amended claim evaluated at
the non-key level 0.6. -/
theorem claim_C2_witness : getZScore 0.6 = 1.96 ∧ getInitialTScore 0.6 = 1.697 :=
  (claim_C2_lookup_fallback 0.6).1 (by norm_num)

/-- C3: the corrector returns the significance unchanged for at most one
comparison, and otherwise the value
`max(1 − (1 − (1 − s))^(1/n), 0.5)`, which reduces to `1 − s^(1/n)`
clamped from below at 0.5. -/
theorem claim_C3_bonferroni_formula (s : ℝ) (n : ℕ) :
    (n ≤ 1 → applyBonferroniCorrection s n = s) ∧
    (2 ≤ n →
      applyBonferroniCorrection s n = max (1 - (1 - (1 - s)) ^ ((1 : ℝ) / (n : ℝ))) 0.5 ∧
      applyBonferroniCorrection s n = max (1 - s ^ ((1 : ℝ) / (n : ℝ))) 0.5) := by
  constructor
  · intro h
    simp only [applyBonferroniCorrection]
    rw [if_pos h]
  · intro h
    have h1 : ¬ n ≤ 1 := by omega
    constructor
    · simp only [applyBonferroniCorrection]
      rw [if_neg h1]
    · simp only [applyBonferroniCorrection]
      rw [if_neg h1, sub_sub_cancel]

/-- C3 witness: both branches of the corrector at significance 0.7. -/
theorem claim_C3_witness :
    applyBonferroniCorrection 0.7 1 = 0.7 ∧
    applyBonferroniCorrection 0.7 2 = max (1 - (0.7 : ℝ) ^ ((1 : ℝ) / ((2 : ℕ) : ℝ))) 0.5 :=
  ⟨(claim_C3_bonferroni_formula 0.7 1).1 (by norm_num),
   ((claim_C3_bonferroni_formula 0.7 2).2 (by norm_num)).2⟩

/-- C4: for df < 3 the t-approximation returns 1.5 times the reference-t
entry; for df ≥ 3 the branch is selected by exact equality of the
upper-tail probability, giving the three special coefficient sets at
confidence levels exactly 0.95, 0.90, 0.99 and the general
`z + 0.85/df + 0.22/df²` formula at every other level. -/
theorem claim_C4_tvalue_branches (df c : ℝ) :
    (df < 3 → calculateTValue df c = getInitialTScore c * 1.5) ∧
    (3 ≤ df →
      (c = 0.95 → calculateTValue df c = 1.96 + 0.958 / df + 0.25 / df ^ 2) ∧
      (c = 0.9 → calculateTValue df c = 1.645 + 0.727 / df + 0.18 / df ^ 2) ∧
      (c = 0.99 → calculateTValue df c = 2.576 + 1.28 / df + 0.38 / df ^ 2) ∧
      (c ≠ 0.95 ∧ c ≠ 0.9 ∧ c ≠ 0.99 →
        calculateTValue df c = getZScore c + 0.85 / df + 0.22 / df ^ 2)) := by
  constructor
  · intro h
    simp only [calculateTValue]
    rw [if_pos h]
  · intro h3
    have hnlt : ¬ df < 3 := not_lt.mpr h3
    refine ⟨?_, ?_, ?_, ?_⟩
    · rintro rfl
      simp only [calculateTValue]
      rw [if_neg hnlt, if_pos (by norm_num : (1 : ℝ) - (1 - 0.95) / 2 = 0.975)]
    · rintro rfl
      simp only [calculateTValue]
      rw [if_neg hnlt, if_neg (by norm_num : ¬ ((1 : ℝ) - (1 - 0.9) / 2 = 0.975)),
        if_pos (by norm_num : (1 : ℝ) - (1 - 0.9) / 2 = 0.95)]
    · rintro rfl
      simp only [calculateTValue]
      rw [if_neg hnlt, if_neg (by norm_num : ¬ ((1 : ℝ) - (1 - 0.99) / 2 = 0.975)),
        if_neg (by norm_num : ¬ ((1 : ℝ) - (1 - 0.99) / 2 = 0.95)),
        if_pos (by norm_num : (1 : ℝ) - (1 - 0.99) / 2 = 0.995)]
    · rintro ⟨h95, h90, h99⟩
      simp only [calculateTValue]
      rw [if_neg hnlt, if_neg (fun heq => h95 (by linarith)),
        if_neg (fun heq => h90 (by linarith)), if_neg (fun heq => h99 (by linarith))]

/-- C4 witness: each of the five branches evaluated at a concrete input. -/
theorem claim_C4_witness :
    calculateTValue 2 0.95 = getInitialTScore 0.95 * 1.5 ∧
    calculateTValue 10 0.95 = 1.96 + 0.958 / 10 + 0.25 / 10 ^ 2 ∧
    calculateTValue 10 0.9 = 1.645 + 0.727 / 10 + 0.18 / 10 ^ 2 ∧
    calculateTValue 10 0.99 = 2.576 + 1.28 / 10 + 0.38 / 10 ^ 2 ∧
    calculateTValue 10 0.97 = getZScore 0.97 + 0.85 / 10 + 0.22 / 10 ^ 2 :=
  ⟨(claim_C4_tvalue_branches 2 0.95).1 (by norm_num),
   ((claim_C4_tvalue_branches 10 0.95).2 (by norm_num)).1 rfl,
   ((claim_C4_tvalue_branches 10 0.9).2 (by norm_num)).2.1 rfl,
   ((claim_C4_tvalue_branches 10 0.99).2 (by norm_num)).2.2.1 rfl,
   ((claim_C4_tvalue_branches 10 0.97).2 (by norm_num)).2.2.2 (by norm_num)⟩

/-- C5 counterexample: the claim says variations > 1 strictly increases
the returned size; for the continuous metric at mean 75, σ 25, mde 10,
significance 0.99, power 0.8, two variations return 175, strictly less
than the 260 returned by one variation. -/
theorem claim_C5_counterexample :
    calculateContinuousSampleSize 75 25 10 0.99 0.8 2 < calculateContinuousSampleSize 75 25 10 0.99 0.8 1 := by
  rw [eval_cont_sig099_var2, eval_cont_sig099]
  norm_num

/-- C5 (amended): with significance at least one half (every realistic
input) and more than one variation, the corrected significance clamps to
0.5, so every metric's result equals the single-variation result at
significance 0.5 — which need not exceed (and can be below) the result
at the original significance with one variation. -/
theorem claim_C5_variations_clamp (b mean sd mde sig pw : ℝ) (v : ℕ)
    (hs : 1 / 2 ≤ sig) (hv : 2 ≤ v) :
    calculateBinomialSampleSize b mde sig pw v = calculateBinomialSampleSize b mde (1 / 2) pw 1 ∧
    calculateContinuousSampleSize mean sd mde sig pw v =
      calculateContinuousSampleSize mean sd mde (1 / 2) pw 1 ∧
    calculateRatioSampleSize mean sd mde sig pw v =
      calculateRatioSampleSize mean sd mde (1 / 2) pw 1 := by
  have e1 : applyBonferroniCorrection sig v = 1 / 2 := applyBonferroniCorrection_eq_half hs hv
  have e2 : applyBonferroniCorrection (1 / 2) 1 = 1 / 2 := by
    simp [applyBonferroniCorrection]
  refine ⟨?_, ?_, ?_⟩ <;>
    simp only [calculateBinomialSampleSize, calculateContinuousSampleSize,
      calculateRatioSampleSize, e1, e2]

/-- C5 witness: the clamp equivalence at significance 0.95 with two
variations, continuous metric. -/
theorem claim_C5_witness :
    calculateContinuousSampleSize 75 25 10 0.95 0.8 2 =
      calculateContinuousSampleSize 75 25 10 (1 / 2) 0.8 1 :=
  (claim_C5_variations_clamp 10 75 25 10 0.95 0.8 2 (by norm_num) (by norm_num)).2.1

/-- C6 counterexample: the claim says increasing significance strictly
increases the returned size; raising it from 0.99 to 0.991 (continuous
metric, mean 75, σ 25, mde 10, power 0.8) drops the result from 260 to
175, because 0.991 is not a table key and falls back to the general
quantile branches. -/
theorem claim_C6_counterexample :
    calculateContinuousSampleSize 75 25 10 0.991 0.8 1 <
      calculateContinuousSampleSize 75 25 10 0.99 0.8 1 := by
  rw [eval_cont_sig0991, eval_cont_sig099]
  norm_num

/-- C6 (amended): monotonicity holds only non-uniformly.  For the
continuous metric at mean 75, σ 25, power 0.8: the size strictly
decreases along mde 5, 10, 20 at significance 0.95, but only weakly in
general (mde 10.01 gives the same 175 as mde 10, refuting strictness);
the size strictly increases along the table keys 0.9, 0.95, 0.99 at
mde 10, but increasing significance off the key grid (0.99 to 0.991)
strictly decreases it, refuting monotonicity in significance. -/
theorem claim_C6_concrete_monotonicity :
    (calculateContinuousSampleSize 75 25 20 0.95 0.8 1 <
        calculateContinuousSampleSize 75 25 10 0.95 0.8 1 ∧
      calculateContinuousSampleSize 75 25 10 0.95 0.8 1 <
        calculateContinuousSampleSize 75 25 5 0.95 0.8 1) ∧
    calculateContinuousSampleSize 75 25 10.01 0.95 0.8 1 =
      calculateContinuousSampleSize 75 25 10 0.95 0.8 1 ∧
    (calculateContinuousSampleSize 75 25 10 0.9 0.8 1 <
        calculateContinuousSampleSize 75 25 10 0.95 0.8 1 ∧
      calculateContinuousSampleSize 75 25 10 0.95 0.8 1 <
        calculateContinuousSampleSize 75 25 10 0.99 0.8 1) ∧
    calculateContinuousSampleSize 75 25 10 0.991 0.8 1 <
      calculateContinuousSampleSize 75 25 10 0.99 0.8 1 := by
  rw [eval_cont_sig095, eval_cont_sig099, eval_cont_sig09, eval_cont_sig0991,
    eval_cont_mde5, eval_cont_mde20, eval_cont_mde1001]
  norm_num

/-- C7 counterexample: the claim says the corrected value is
non-increasing in the number of comparisons from n = 1 on; at
significance 0.2 the value jumps up from 0.2 at one comparison to at
least 0.5 at two. -/
theorem claim_C7_counterexample :
    applyBonferroniCorrection 0.2 1 < applyBonferroniCorrection 0.2 2 := by
  have h1 : applyBonferroniCorrection 0.2 1 = 0.2 := by
    simp [applyBonferroniCorrection]
  have h2 : (0.5 : ℝ) ≤ applyBonferroniCorrection 0.2 2 := by
    simp only [applyBonferroniCorrection]
    rw [if_neg (by norm_num)]
    exact le_max_right _ _
  rw [h1]
  linarith

/-- C7 (amended): for significance at least one half the corrected value
is s at one comparison and exactly the floor 0.5 for every n ≥ 2, hence
non-increasing in n and constant once the floor is reached; for
significance below one half the claimed monotonicity fails. -/
theorem claim_C7_floor_monotone (s : ℝ) (hs : 1 / 2 ≤ s) :
    applyBonferroniCorrection s 1 = s ∧
    (∀ n : ℕ, 2 ≤ n → applyBonferroniCorrection s n = 1 / 2) ∧
    (∀ n m : ℕ, 1 ≤ n → n ≤ m →
      applyBonferroniCorrection s m ≤ applyBonferroniCorrection s n) := by
  have h1 : applyBonferroniCorrection s 1 = s := by
    simp only [applyBonferroniCorrection]
    rw [if_pos (by norm_num)]
  refine ⟨h1, fun n hn => applyBonferroniCorrection_eq_half hs hn, ?_⟩
  intro n m hn hnm
  by_cases hm2 : 2 ≤ m
  · rw [applyBonferroniCorrection_eq_half hs hm2]
    by_cases hn2 : 2 ≤ n
    · rw [applyBonferroniCorrection_eq_half hs hn2]
    · have hone : n = 1 := by omega
      rw [hone, h1]
      exact hs
  · have hm1 : m = 1 := by omega
    have hn1 : n = 1 := by omega
    rw [hm1, hn1]

/-- C7 witness: the amended monotonicity at significance 0.9 and
comparison counts 1, 2, 3. -/
theorem claim_C7_witness :
    applyBonferroniCorrection 0.9 1 = 0.9 ∧
    applyBonferroniCorrection 0.9 2 = 1 / 2 ∧
    applyBonferroniCorrection 0.9 3 ≤ applyBonferroniCorrection 0.9 2 :=
  ⟨(claim_C7_floor_monotone 0.9 (by norm_num)).1,
   (claim_C7_floor_monotone 0.9 (by norm_num)).2.1 2 (by norm_num),
   (claim_C7_floor_monotone 0.9 (by norm_num)).2.2 2 3 (by norm_num) (by norm_num)⟩

/-- C8 counterexample: the claim says tValue(1000, 0.95) differs from
the table's normal quantile 1.65 by less than 0.05; the actual value is
1.96 + 0.958/1000 + 0.25/1000², about 0.311 away from 1.65. -/
theorem claim_C8_counterexample : ¬ |calculateTValue 1000 0.95 - 1.65| < 0.05 := by
  have hval : calculateTValue 1000 0.95 = 1.96 + 0.958 / 1000 + 0.25 / 1000 ^ 2 := by
    simp only [calculateTValue]
    rw [if_neg (by norm_num), if_pos (by norm_num)]
  rw [hval, abs_of_pos (by norm_num)]
  norm_num

/-- C8 (amended): for every df ≥ 1000, tValue(df, 0.95) differs from the
true two-tailed 95% normal quantile 1.96 — the asymptotic constant of
the 0.95 branch — by less than 0.05 (the table's one-sided 0.95 entry
1.65 is about 0.31 away instead). -/
theorem claim_C8_tvalue_asymptote (df : ℝ) (h : 1000 ≤ df) :
    |calculateTValue df 0.95 - 1.96| < 0.05 := by
  have hdfpos : (0 : ℝ) < df := by linarith
  have hnlt : ¬ df < 3 := by push_neg; linarith
  have hval : calculateTValue df 0.95 = 1.96 + 0.958 / df + 0.25 / df ^ 2 := by
    simp only [calculateTValue]
    rw [if_neg hnlt, if_pos (by norm_num : (1 : ℝ) - (1 - 0.95) / 2 = 0.975)]
  have h1 : (0.958 : ℝ) / df ≤ 0.958 / 1000 := by gcongr
  have h2 : (0.25 : ℝ) / df ^ 2 ≤ 0.25 / 1000 ^ 2 := by gcongr
  have hp1 : (0 : ℝ) < 0.958 / df := div_pos (by norm_num) hdfpos
  have hp2 : (0 : ℝ) < 0.25 / df ^ 2 := div_pos (by norm_num) (by positivity)
  have heq : 1.96 + 0.958 / df + 0.25 / df ^ 2 - 1.96 = 0.958 / df + 0.25 / df ^ 2 := by ring
  rw [hval, heq, abs_of_pos (by linarith)]
  have hbound : (0.958 : ℝ) / 1000 + 0.25 / 1000 ^ 2 < 0.05 := by norm_num
  linarith

/-- C8 witness: the amended bound at df = 1000. -/
theorem claim_C8_witness : |calculateTValue 1000 0.95 - 1.96| < 0.05 :=
  claim_C8_tvalue_asymptote 1000 (by norm_num)

/-- C9: the engine is total — the embedding returns a value for every
numeric input by construction — and on the degenerate binomial input
baselineValue = 0 (so p1 = p2 = 0 and a zero denominator) the IEEE
model of the computation returns NaN, not an error: 0/0 produces NaN at
the initial estimate and NaN propagates through all four refinement
iterations. -/
theorem claim_C9_degenerate_nan (mde sig pw : ℝ) :
    calculateBinomialSampleSizeJs 0 mde sig pw 1 = JsNum.nan := by
  norm_num [calculateBinomialSampleSizeJs, range_four, JsNum.div, JsNum.mul, JsNum.add,
    JsNum.sub, JsNum.neg, JsNum.sqrt, JsNum.pow2, JsNum.ceil, tvalJs_nan, Real.sqrt_zero]

/-- C10: for every nonzero mean the ratio estimator returns exactly the
continuous estimator's result on identical arguments, since
2·(σ/mean)²·S²/(mde/100)² equals 2·σ²·S²/((mde/100)·mean)² in exact
arithmetic at the initial estimate and at every refinement iteration. -/
theorem claim_C10_ratio_continuous_equiv (mean sd mde sig pw : ℝ) (v : ℕ) (h : mean ≠ 0) :
    calculateRatioSampleSize mean sd mde sig pw v =
      calculateContinuousSampleSize mean sd mde sig pw v := by
  have key : ∀ S : ℝ, 2 * (sd / mean) ^ 2 * S ^ 2 / (mde / 100) ^ 2 =
      2 * sd ^ 2 * S ^ 2 / (mde / 100 * mean) ^ 2 := fun S => by
    ring
  simp only [calculateRatioSampleSize, calculateContinuousSampleSize, key]

/-- C10 witness: ratio equals continuous at the spec's concrete
scenario mean 75, σ 25, mde 10, significance 0.95, power 0.8. -/
theorem claim_C10_witness :
    (75 : ℝ) ≠ 0 ∧
    calculateRatioSampleSize 75 25 10 0.95 0.8 1 =
      calculateContinuousSampleSize 75 25 10 0.95 0.8 1 :=
  ⟨by norm_num, claim_C10_ratio_continuous_equiv 75 25 10 0.95 0.8 1 (by norm_num)⟩

end Zenith

end
